import Mathlib

/-!
Verification development for the k6-performance-testing repository.

The repository consists of k6 test scripts (tests/), a mock e-commerce API
server (api/src/server.js) and report tooling.  The load-generation engine
itself (metrics aggregation, threshold evaluation, exit-code computation)
is external to the repository; the spec specifies its design, so those
parts are modelled from the spec.  Everything about the API server and the
test scripts is translated directly from the JavaScript source.

Numbers are modelled as exact rationals; JavaScript Math.round and
Number.toFixed are modelled explicitly where the source uses them.
-/

namespace LoadEngine

/-- Modelled from the spec: the three metric kinds of section 3
(MetricSeries: Counter sums, Rate computes fraction of true observations,
Trend retains samples for percentile queries).  The engine that aggregates
them is the external k6 tool, absent from the repository, so the raw
recorded sample streams are kept here.  Counter deltas are rationals;
Trend samples are latencies in whole milliseconds, as in every scenario
the spec and the scripts state. -/
inductive MetricData where
  | counter (deltas : List ℚ)
  | rate (obs : List Bool)
  | trend (samples : List ℤ)
deriving DecidableEq

/-- Modelled from the spec: Counter ingestion is an atomic sum (section 4.3,
Counter: atomic sum); the schedule of add calls is folded into the running
value one delta at a time. -/
def counterFinal (schedule : List ℚ) : ℚ :=
  schedule.foldl (fun acc d => acc + d) 0

/-- Modelled from the spec: the Rate aggregator state, an atomic pair
(trueCount, totalCount) (section 4.3). -/
structure RatePair where
  trueCount : ℕ
  totalCount : ℕ
deriving DecidableEq

/-- Modelled from the spec: ingesting one boolean observation into a Rate. -/
def rateAdd (p : RatePair) (b : Bool) : RatePair :=
  { trueCount := p.trueCount + (if b then 1 else 0), totalCount := p.totalCount + 1 }

/-- Modelled from the spec: ingesting a stream of observations. -/
def rateIngest (obs : List Bool) : RatePair :=
  obs.foldl rateAdd { trueCount := 0, totalCount := 0 }

/-- Modelled from the spec: rate = trueCount/totalCount, 0 if totalCount=0
(section 4.3). -/
def rateReport (p : RatePair) : ℚ :=
  if p.totalCount = 0 then 0 else (p.trueCount : ℚ) / (p.totalCount : ℚ)

/-- Modelled from the spec: Trend percentile by the nearest-rank method on
the exact retained buffer (section 4.3: exact buffer answering arbitrary
p(N); section 8 places p95 of 95 samples at 50 and 5 at 500 exactly at the
50 boundary, which nearest rank yields).  The rank of p(N) over n samples
is the ceiling of N*n/100, computed here by ceiling division. -/
def percentile (p : ℕ) (xs : List ℤ) : ℤ :=
  if xs.length = 0 then 0
  else (List.insertionSort (fun a b => a ≤ b) xs).getD ((p * xs.length + 99) / 100 - 1) 0

/-- Modelled from the spec: threshold expressions over a MetricSeries
(section 3, Threshold), in the three forms the repository configures:
p(N)&lt;bound on a Trend, count&gt;bound on a Counter, rate&lt;bound on a Rate. -/
inductive Threshold where
  | pLt (p : ℕ) (bound : ℤ)
  | countGt (bound : ℚ)
  | rateLt (bound : ℚ)
deriving DecidableEq

/-- Modelled from the spec: evaluating one threshold expression against the
metric data it is configured on (section 4.4, pass/fail per threshold).
A threshold applied to data of the wrong kind fails. -/
def evalThreshold : Threshold → MetricData → Bool
  | .pLt p bound, .trend samples => percentile p samples < bound
  | .countGt bound, .counter deltas => bound < counterFinal deltas
  | .rateLt bound, .rate obs => rateReport (rateIngest obs) < bound
  | _, _ => false

/-- A snapshot of the metric store: named metric series (section 4.3,
Snapshot). -/
def Snapshot : Type := List (String × MetricData)

/-- Modelled from the spec: looking a metric up in a snapshot; a metric
never written to has no recorded samples. -/
def snapshotGet (snap : Snapshot) (name : String) : MetricData :=
  ((snap.find? (fun e => e.1 == name)).map Prod.snd).getD (MetricData.counter [])

/-- Modelled from the spec: a threshold configuration binds metric names to
threshold expressions; all must pass (section 4.4). -/
def allThresholdsPass (cfg : List (String × Threshold)) (snap : Snapshot) : Bool :=
  cfg.all (fun nt => evalThreshold nt.2 (snapshotGet snap nt.1))

/-- Modelled from the spec: the run produces a sequence of snapshots; the
exit code is decided by the evaluation at the last snapshot alone, 0 when
every configured threshold passes there and 1 otherwise (section 4.4 and
section 6: exit code 0 on all thresholds passing, non-zero otherwise). -/
def runExitCode (cfg : List (String × Threshold)) (snaps : List Snapshot) : ℕ :=
  if allThresholdsPass cfg (snaps.getLastD []) then 0 else 1

/-- The threshold configuration of tests/load/purchase-flow.js options:
the spread of the shared THRESHOLDS object from tests/config.js followed by
the two script-specific entries. -/
def purchaseFlowThresholds : List (String × Threshold) :=
  [("http_req_duration", .pLt 95 500),
   ("http_req_duration", .pLt 99 1000),
   ("http_req_failed", .rateLt (1/100)),
   ("http_req_duration\x7btype:auth\x7d", .pLt 95 300),
   ("http_req_duration\x7btype:read\x7d", .pLt 95 200),
   ("http_req_duration\x7btype:write\x7d", .pLt 95 500),
   ("http_req_duration\x7btype:search\x7d", .pLt 95 400),
   ("purchase_success", .countGt 0),
   ("checkout_duration", .pLt 95 1000)]

/-- The spec scenario sample set that must pass p(95)&lt;100: 95 of 100
samples at 50ms and 5 at 500ms (section 8). -/
def samplesP95Pass : List ℤ :=
  List.replicate 95 50 ++ List.replicate 5 500

/-- The spec scenario sample set that must fail p(95)&lt;100: 94 of 100
samples at 50ms and 6 at 500ms (section 8). -/
def samplesP95Fail : List ℤ :=
  List.replicate 94 50 ++ List.replicate 6 500

end LoadEngine

namespace ApiServer

/-- JavaScript Math.round on an exact rational: nearest integer, ties
rounded toward positive infinity. -/
def jsRound (q : ℚ) : ℤ :=
  ⌊q + 1 / 2⌋

/-- The rounding idiom of api/src/server.js, Math.round(x * 100) / 100:
round to two decimal places. -/
def jsRound2 (q : ℚ) : ℚ :=
  (jsRound (q * 100) : ℚ) / 100

/-- JavaScript Number.toFixed(2) of a nonnegative rational, rendered as a
decimal string: the value scaled by 100 is rounded to the nearest integer
and printed with two digits after the point. -/
def jsToFixed2Str (q : ℚ) : String :=
  let n := (jsRound (q * 100)).toNat
  toString (n / 100) ++ "." ++ (if n % 100 < 10 then "0" else "") ++ toString (n % 100)

/-- The error-rate field of the GET /metrics handler (server.js lines
136-145): when metrics.requests is positive it is
(metrics.errors / metrics.requests * 100).toFixed(2) with a percent sign
appended, otherwise the literal string 0%. -/
def metricsErrorRate (requests errors : ℕ) : String :=
  if 0 < requests then jsToFixed2Str ((errors : ℚ) / (requests : ℚ) * 100) ++ "%" else "0%"

/-- One line of a cart in the in-memory database: the fields pushed by the
POST /api/cart/items handler (server.js lines 289-294). -/
structure CartItem where
  productId : String
  name : String
  price : ℚ
  quantity : ℚ
deriving DecidableEq

/-- A stored cart: its item lines and its running total (server.js). -/
structure Cart where
  items : List CartItem
  total : ℚ
deriving DecidableEq

/-- The default cart value used whenever a user has no stored cart,
the object literal with an empty items list and total 0. -/
def emptyCart : Cart :=
  { items := [], total := 0 }

/-- A product as read by the cart handler: of the generated product fields
only id, name and price are ever consulted by the handlers modelled here
(the remaining generated fields are never read by them). -/
structure Product where
  id : String
  name : String
  price : ℚ
deriving DecidableEq

/-- An order as created by the POST /api/orders handler (server.js lines
331-338). -/
structure Order where
  id : String
  userId : String
  items : List CartItem
  total : ℚ
  status : String
  createdAt : String
deriving DecidableEq

/-- JavaScript Map.get: the value stored under a key, looked up in an
association list kept in insertion order. -/
def jsMapGet {β : Type} (m : List (String × β)) (k : String) : Option β :=
  (m.find? (fun e => e.1 == k)).map Prod.snd

/-- JavaScript Map.set: replace the value under an existing key in place,
or append a new entry. -/
def jsMapSet {β : Type} (m : List (String × β)) (k : String) (v : β) : List (String × β) :=
  if m.any (fun e => e.1 == k) then m.map (fun e => if e.1 == k then (k, v) else e)
  else m ++ [(k, v)]

/-- The slice of the in-memory database the cart and order handlers touch:
db.products, db.orders and db.carts (server.js lines 67-73). -/
structure Db where
  products : List Product
  orders : List Order
  carts : List (String × Cart)
deriving DecidableEq

/-- Responses of the cart handlers: 400, 404, or 200 with the cart. -/
inductive CartResponse where
  | badRequest (error : String)
  | notFound (error : String)
  | ok (cart : Cart)
deriving DecidableEq

/-- Responses of POST /api/orders: 400, or 201 with the created order. -/
inductive OrderResponse where
  | badRequest (error : String)
  | created (order : Order)
deriving DecidableEq

/-- JavaScript falsiness of the destructured productId body field: absent
(undefined or null) or the empty string. -/
def jsFalsyStr (s : Option String) : Bool :=
  match s with
  | none => true
  | some v => v == ""

/-- The in-place quantity update of the existing cart line found by
cart.items.find in the POST /api/cart/items handler: the first line with
the given productId gets its quantity increased. -/
def bumpFirst (productId : String) (quantity : ℚ) : List CartItem → List CartItem
  | [] => []
  | i :: rest =>
    if i.productId == productId then { i with quantity := i.quantity + quantity } :: rest
    else i :: bumpFirst productId quantity rest

/-- The total recomputation both cart handlers perform:
cart.items.reduce((sum, item) =&gt; sum + item.price * item.quantity, 0)
followed by Math.round(total * 100) / 100. -/
def recomputedTotal (items : List CartItem) : ℚ :=
  jsRound2 (items.foldl (fun sum item => sum + item.price * item.quantity) 0)

/-- The POST /api/cart/items handler (server.js lines 268-302).  The body
carries an optional productId and an optional quantity defaulting to 1 by
destructuring.  A falsy productId is a 400, an unknown product a 404;
otherwise the user's cart (or the empty cart) gets the line added or its
existing line bumped, the total is recomputed and rounded, and the cart is
stored back and returned. -/
def postCartItems (db : Db) (userId : String) (productId : Option String)
    (quantity : Option ℚ) : Db × CartResponse :=
  if jsFalsyStr productId then (db, .badRequest "Product ID required")
  else
    match db.products.find? (fun p => p.id == productId.getD "") with
    | none => (db, .notFound "Product not found")
    | some product =>
      let cart := (jsMapGet db.carts userId).getD emptyCart
      let items :=
        if cart.items.any (fun i => i.productId == productId.getD "") then
          bumpFirst (productId.getD "") (quantity.getD 1) cart.items
        else cart.items ++ [{ productId := productId.getD "", name := product.name,
                              price := product.price, quantity := quantity.getD 1 }]
      let newCart : Cart := { items := items, total := recomputedTotal items }
      ({ db with carts := jsMapSet db.carts userId newCart }, .ok newCart)

/-- The DELETE /api/cart/items/:productId handler (server.js lines
304-319): 404 when the user has no cart, otherwise the lines with the
given productId are filtered out, the total recomputed and rounded, and
the cart stored back and returned. -/
def deleteCartItem (db : Db) (userId : String) (productId : String) : Db × CartResponse :=
  match jsMapGet db.carts userId with
  | none => (db, .notFound "Cart not found")
  | some cart =>
    let items := cart.items.filter (fun i => i.productId != productId)
    let newCart : Cart := { items := items, total := recomputedTotal items }
    ({ db with carts := jsMapSet db.carts userId newCart }, .ok newCart)

/-- The POST /api/orders handler (server.js lines 322-344): 400 when the
user has no cart or the cart has no items; otherwise an order with the
cart's items and total and status confirmed is appended to db.orders, the
user's cart is reset to the empty cart, and the order is returned with
201.  The generated uuid and timestamp enter as parameters. -/
def postOrders (db : Db) (userId : String) (newOrderId : String) (now : String) :
    Db × OrderResponse :=
  match jsMapGet db.carts userId with
  | none => (db, .badRequest "Cart is empty")
  | some cart =>
    if cart.items.length = 0 then (db, .badRequest "Cart is empty")
    else
      let order : Order := { id := newOrderId, userId := userId, items := cart.items,
                             total := cart.total, status := "confirmed", createdAt := now }
      ({ db with orders := db.orders ++ [order],
                 carts := jsMapSet db.carts userId emptyCart },
       .created order)

/-- The invariant claimed of every stored cart: its total is the rounded
sum of price times quantity over its items. -/
def cartInv (c : Cart) : Prop :=
  c.total = recomputedTotal c.items

/-- The pruned-and-extended per-IP timestamp list the rate limiter stores
on every request (server.js lines 88-90): previously stored timestamps
still inside the trailing 60000ms window, with the current time appended.
This happens whether or not the request is then rejected. -/
def rlRecord (stored : List ℤ) (now : ℤ) : List ℤ :=
  stored.filter (fun time => now - 60000 < time) ++ [now]

/-- The checkRateLimit function (server.js lines 80-93): it stores the
pruned-and-extended list back into the per-IP map and reports whether its
length is within RATE_LIMIT.  The middleware (lines 96-108) answers 429
exactly when this reports false, and otherwise passes the request on to
the endpoint handler. -/
def checkRateLimit (limit : ℕ) (stored : List ℤ) (now : ℤ) : Bool × List ℤ :=
  (decide ((rlRecord stored now).length ≤ limit), rlRecord stored now)

/-- The per-IP limiter state after a sequence of requests from one IP has
been processed in order. -/
def storedAfter (stored : List ℤ) : List ℤ → List ℤ
  | [] => stored
  | t :: ts => storedAfter (rlRecord stored t) ts

/-- The timestamps of the requests among a same-IP request sequence that
the middleware passes through to an endpoint handler (those on which
checkRateLimit reports true). -/
def acceptedTimes (limit : ℕ) (stored : List ℤ) : List ℤ → List ℤ
  | [] => []
  | t :: ts =>
    if (checkRateLimit limit stored t).1 then t :: acceptedTimes limit (rlRecord stored t) ts
    else acceptedTimes limit (rlRecord stored t) ts

end ApiServer

namespace Scripts

/-- A JavaScript template literal interpolation of a nullable string:
null renders as the four letters null. -/
def jsNullableStr (t : Option String) : String :=
  match t with
  | none => "null"
  | some s => s

/-- JavaScript truthiness of a nullable string: null and the empty string
are falsy. -/
def jsTruthyStr (t : Option String) : Bool :=
  match t with
  | none => false
  | some s => s != ""

/-- The header object built by getAuthHeaders in tests/config.js: the
shared HEADERS spread plus an Authorization field interpolating the
token into a Bearer template. -/
structure AuthHeaders where
  contentType : String
  accept : String
  authorization : String
deriving DecidableEq

/-- getAuthHeaders from tests/config.js lines 20-25. -/
def getAuthHeaders (token : Option String) : AuthHeaders :=
  { contentType := "application/json", accept := "application/json",
    authorization := "Bearer " ++ jsNullableStr token }

/-- How an iteration function starts once handed the setup data: it either
returns before issuing any request, or proceeds, carrying the
Authorization header value it will pass to the helpers (none when it
leaves authHeaders undefined and the helpers fall back to the shared
unauthenticated HEADERS). -/
inductive IterStart where
  | earlyReturn
  | proceed (authorization : Option String)
deriving DecidableEq

/-- The token handling at the head of the baseline iteration
(tests/load/baseline.js line 36): authHeaders is getAuthHeaders(data.token)
when the token is truthy and undefined otherwise; either way the iteration
continues.  No operation on this path can raise, so the result is total. -/
def baselineIterStart (token : Option String) : Except String IterStart :=
  .ok (.proceed (if jsTruthyStr token then some (getAuthHeaders token).authorization else none))

/-- The token handling at the head of the stress iteration
(tests/stress/breaking-point.js line 206), the same guarded pattern as the
baseline script. -/
def stressIterStart (token : Option String) : Except String IterStart :=
  .ok (.proceed (if jsTruthyStr token then some (getAuthHeaders token).authorization else none))

/-- The token handling at the head of the spike iteration
(tests/spike/sudden-traffic.js line 52), the same guarded pattern. -/
def spikeIterStart (token : Option String) : Except String IterStart :=
  .ok (.proceed (if jsTruthyStr token then some (getAuthHeaders token).authorization else none))

/-- The token handling at the head of the soak iteration
(tests/soak/endurance.js line 54), the same guarded pattern; the cart
operations further down are additionally guarded by if (authHeaders). -/
def soakIterStart (token : Option String) : Except String IterStart :=
  .ok (.proceed (if jsTruthyStr token then some (getAuthHeaders token).authorization else none))

/-- The head of validateToken in the auth stress script (tests/config.js
companion script lines 183-186): a falsy data.validToken returns from the
iteration at once; otherwise the request proceeds with an inline Bearer
header. -/
def validateTokenIterStart (validToken : Option String) : Except String IterStart :=
  if !(jsTruthyStr validToken) then .ok .earlyReturn
  else .ok (.proceed (some ("Bearer " ++ jsNullableStr validToken)))

/-- The head of the api-crud iteration (tests/load/api-crud.js line 53):
getAuthHeaders(data.token) is applied unconditionally, so a null token
interpolates into the header value Bearer null and the iteration proceeds
without valid authentication; nothing on this path raises. -/
def apiCrudIterStart (token : Option String) : Except String IterStart :=
  .ok (.proceed (some (getAuthHeaders token).authorization))

/-- JavaScript values as they appear in the k6 summary object handed to
handleSummary. -/
inductive Js where
  | null
  | undefined
  | bool (b : Bool)
  | num (q : ℚ)
  | str (s : String)
  | arr (elems : List Js)
  | obj (fields : List (String × Js))

/-- Lookup of a field of an object value, first match in the field list;
none on non-objects.  Field lists follow the same first-match lookup
discipline as the JavaScript Map model. -/
def jsField (v : Js) (k : String) : Option Js :=
  match v with
  | .obj fs => ApiServer.jsMapGet fs k
  | _ => none

/-- JavaScript member access v.k: raises TypeError on null or undefined,
yields the field (or undefined) on an object, and undefined on other
values. -/
def jsMember (v : Js) (k : String) : Except String Js :=
  match v with
  | .undefined => .error "TypeError"
  | .null => .error "TypeError"
  | .obj fs => .ok ((ApiServer.jsMapGet fs k).getD .undefined)
  | _ => .ok .undefined

/-- JavaScript truthiness of a value. -/
def jsTruthy (v : Js) : Bool :=
  match v with
  | .undefined => false
  | .null => false
  | .bool b => b
  | .num q => decide (q ≠ 0)
  | .str s => s != ""
  | .arr _ => true
  | .obj _ => true

/-- The object-literal spread idiom of the stress and soak summaries,
an object written as data spread first and one extra key after it: the
entries of data in order, with the extra key overwritten in place when
already present and appended otherwise. -/
def jsSpreadSet (d : Js) (k : String) (v : Js) : Js :=
  match d with
  | .obj fs => .obj (ApiServer.jsMapSet fs k v)
  | _ => .obj [(k, v)]

/-- Rendering of a number in the serialized report; integral rationals
print as integers. -/
def ratStr (q : ℚ) : String :=
  if q.den = 1 then toString q.num else toString q.num ++ "/" ++ toString q.den

/-- Escaping of quote and backslash inside a serialized JSON string. -/
def jsonEscape (s : String) : String :=
  String.mk (s.data.foldr
    (fun c acc =>
      if c = Char.ofNat 34 ∨ c = Char.ofNat 92 then Char.ofNat 92 :: c :: acc else c :: acc)
    [])

/-- A serialized JSON string with its surrounding quotes. -/
def quoteJson (s : String) : String :=
  String.mk [Char.ofNat 34] ++ jsonEscape s ++ String.mk [Char.ofNat 34]

/-- The two-space indentation JSON.stringify(data, null, 2) prints at a
nesting level. -/
def jsonIndent (lvl : ℕ) : String :=
  String.mk (List.replicate (2 * lvl) ' ')

mutual

/-- JSON.stringify with indent 2 at a nesting level: undefined serializes
to nothing, objects drop fields whose value serializes to nothing, array
holes render as null. -/
def jsStringify (lvl : ℕ) : Js → Option String
  | .undefined => none
  | .null => some "null"
  | .bool b => some (cond b "true" "false")
  | .num q => some (ratStr q)
  | .str s => some (quoteJson s)
  | .arr es =>
    let rendered := jsStringifyElems (lvl + 1) es
    some (if rendered.isEmpty then "[]"
      else "[\n" ++ String.intercalate ",\n" (rendered.map (fun r => jsonIndent (lvl + 1) ++ r))
        ++ "\n" ++ jsonIndent lvl ++ "]")
  | .obj fs =>
    let rendered := jsStringifyFields (lvl + 1) fs
    some (if rendered.isEmpty then "\x7b\x7d"
      else "\x7b\n" ++ String.intercalate ",\n" (rendered.map (fun r => jsonIndent (lvl + 1) ++ r))
        ++ "\n" ++ jsonIndent lvl ++ "\x7d")

/-- Serialized array elements at a nesting level. -/
def jsStringifyElems (lvl : ℕ) : List Js → List String
  | [] => []
  | v :: vs => ((jsStringify lvl v).getD "null") :: jsStringifyElems lvl vs

/-- Serialized object entries at a nesting level, dropping fields whose
value does not serialize. -/
def jsStringifyFields (lvl : ℕ) : List (String × Js) → List String
  | [] => []
  | f :: fs =>
    match jsStringify lvl f.2 with
    | none => jsStringifyFields lvl fs
    | some s => (quoteJson f.1 ++ ": " ++ s) :: jsStringifyFields lvl fs

end

/-- JSON.stringify(data, null, 2) as the scripts call it on the summary
object (always an object in a k6 run). -/
def jsonStringify2 (v : Js) : String :=
  (jsStringify 0 v).getD "undefined"

/-- handleSummary of tests/load/baseline.js lines 68-72. -/
def handleSummaryBaseline (data : Js) : List (String × String) :=
  [("reports/baseline-summary.json", jsonStringify2 data)]

/-- handleSummary of tests/load/purchase-flow.js lines 135-139. -/
def handleSummaryPurchaseFlow (data : Js) : List (String × String) :=
  [("reports/purchase-flow-summary.json", jsonStringify2 data)]

/-- handleSummary of tests/load/api-crud.js lines 157-161. -/
def handleSummaryApiCrud (data : Js) : List (String × String) :=
  [("reports/api-crud-summary.json", jsonStringify2 data)]

/-- handleSummary of tests/scenarios/mixed-workload.js lines 218-222. -/
def handleSummaryMixedWorkload (data : Js) : List (String × String) :=
  [("reports/mixed-workload-summary.json", jsonStringify2 data)]

/-- handleSummary of the auth stress script lines 209-213. -/
def handleSummaryAuthStress (data : Js) : List (String × String) :=
  [("reports/auth-stress-summary.json", jsonStringify2 data)]

/-- handleSummary of tests/spike/sudden-traffic.js lines 87-91. -/
def handleSummarySpike (data : Js) : List (String × String) :=
  [("reports/spike-summary.json", jsonStringify2 data)]

/-- The analysis object the stress handleSummary builds
(tests/stress/breaking-point.js lines 243-252), with the member accesses
in source order; each accesses data.metrics and then guards the metric
before reaching into values. -/
def stressAnalysis (data : Js) : Except String Js := do
  let metrics1 ← jsMember data "metrics"
  let vusMax ← jsMember metrics1 "vus_max"
  let maxVUs ←
    if jsTruthy vusMax then do
      let values ← jsMember vusMax "values"
      jsMember values "max"
    else pure (Js.str "N/A")
  let metrics2 ← jsMember data "metrics"
  let errorRate ← jsMember metrics2 "error_rate"
  let errorRateFinal ←
    if jsTruthy errorRate then do
      let values ← jsMember errorRate "values"
      jsMember values "rate"
    else pure (Js.str "N/A")
  let metrics3 ← jsMember data "metrics"
  let httpReqDuration ← jsMember metrics3 "http_req_duration"
  let p95ResponseTime ←
    if jsTruthy httpReqDuration then do
      let values ← jsMember httpReqDuration "values"
      jsMember values "p(95)"
    else pure (Js.str "N/A")
  let metrics4 ← jsMember data "metrics"
  let degraded ← jsMember metrics4 "degraded_responses"
  let degradedCount ←
    if jsTruthy degraded then do
      let values ← jsMember degraded "values"
      jsMember values "count"
    else pure (Js.num 0)
  pure (Js.obj [("maxVUs", maxVUs), ("errorRateFinal", errorRateFinal),
                ("p95ResponseTime", p95ResponseTime), ("degradedCount", degradedCount)])

/-- handleSummary of tests/stress/breaking-point.js lines 242-257: the
summary is data spread with the analysis object added under the key
analysis, serialized under the single stress report path. -/
def handleSummaryStress (data : Js) : Except String (List (String × String)) := do
  let a ← stressAnalysis data
  pure [("reports/stress-summary.json", jsonStringify2 (jsSpreadSet data "analysis" a))]

/-- The soakAnalysis object the soak handleSummary builds
(tests/soak/endurance.js lines 102-111). -/
def soakAnalysis (data : Js) : Except String Js := do
  let state ← jsMember data "state"
  let totalDuration ←
    if jsTruthy state then jsMember state "testRunDurationMs"
    else pure (Js.str "N/A")
  let metrics ← jsMember data "metrics"
  let memMetric ← jsMember metrics "memory_indicator_response_time"
  let memoryTrend ←
    if jsTruthy memMetric then jsMember memMetric "values"
    else pure (Js.str "N/A")
  pure (Js.obj [("totalDuration", totalDuration),
                ("avgResponseTimeStart", Js.str "Check time-series data"),
                ("avgResponseTimeEnd", Js.str "Check time-series data"),
                ("memoryTrend", memoryTrend)])

/-- handleSummary of tests/soak/endurance.js lines 101-116: the summary is
data spread with the soakAnalysis object added under the key soakAnalysis,
serialized under the single soak report path. -/
def handleSummarySoak (data : Js) : Except String (List (String × String)) := do
  let a ← soakAnalysis data
  pure [("reports/soak-summary.json", jsonStringify2 (jsSpreadSet data "soakAnalysis" a))]

end Scripts

/-- A concrete cart line used to instantiate the order and cart theorems. -/
def sampleItem : ApiServer.CartItem :=
  { productId := "1", name := "Product 1", price := 5, quantity := 2 }

/-- A concrete cart whose total is the rounded sum over its lines. -/
def sampleCart : ApiServer.Cart :=
  { items := [sampleItem], total := 10 }

/-- A concrete database with one stored cart, used to instantiate the
order and cart theorems. -/
def sampleDb : ApiServer.Db :=
  { products := [], orders := [], carts := [("u1", sampleCart)] }

/-- A concrete summary object with an empty metrics store, used to
instantiate the summary theorems. -/
def sampleSummary : Scripts.Js :=
  Scripts.Js.obj [("metrics", Scripts.Js.obj [])]

open LoadEngine ApiServer Scripts

/-- Folding additions starting from an accumulator adds the list sum. -/
theorem foldl_add_eq (l : List ℚ) : ∀ a : ℚ, l.foldl (fun acc d => acc + d) a = a + l.sum := by
  induction l with
  | nil => intro a; simp
  | cons x xs ih => intro a; simp [ih, add_assoc]

/-- The Counter fold computes the list sum. -/
theorem counterFinal_eq_sum (l : List ℚ) : counterFinal l = l.sum := by
  simp [counterFinal, foldl_add_eq]

/-- The Rate fold counts true observations and all observations. -/
theorem rateIngest_foldl (obs : List Bool) : ∀ p : RatePair,
    (obs.foldl rateAdd p).trueCount = p.trueCount + obs.count true ∧
    (obs.foldl rateAdd p).totalCount = p.totalCount + obs.length := by
  induction obs with
  | nil => intro p; simp
  | cons b obs ih =>
    intro p
    have h := ih (rateAdd p b)
    constructor
    · show (List.foldl rateAdd (rateAdd p b) obs).trueCount = _
      rw [h.1]
      cases b
      · simp [rateAdd, List.count_cons]
      · simp [rateAdd, List.count_cons]
        omega
    · show (List.foldl rateAdd (rateAdd p b) obs).totalCount = _
      rw [h.2]
      cases b
      · simp [rateAdd]
        omega
      · simp [rateAdd]
        omega

/-- Claim C1: for a Trend with exactly 100 recorded samples, the threshold
p(95)&lt;100 passes when 95 samples are 50ms and 5 are 500ms (p95 sits at
the 50ms boundary), and fails when the split is 94 samples at 50ms and 6
at 500ms. -/
theorem claim_C1 :
    evalThreshold (.pLt 95 100) (.trend samplesP95Pass) = true ∧
    evalThreshold (.pLt 95 100) (.trend samplesP95Fail) = false ∧
    percentile 95 samplesP95Pass = 50 ∧
    percentile 95 samplesP95Fail = 500 :=
  ⟨by decide, by decide, by decide, by decide⟩

/-- Claim C2: a threshold count&gt;0 configured on a metric with zero
recorded samples evaluates to fail, and in particular the purchase-flow
configuration fails on a run in which purchase_success counted nothing. -/
theorem claim_C2 :
    (∀ (cfg : List (String × Threshold)) (name : String) (snap : Snapshot),
      (name, Threshold.countGt 0) ∈ cfg →
      snapshotGet snap name = MetricData.counter [] →
      allThresholdsPass cfg snap = false) ∧
    evalThreshold (Threshold.countGt 0) (MetricData.counter []) = false := by
  constructor
  · intro cfg name snap hmem hget
    apply Bool.eq_false_iff.mpr
    intro hall
    rw [allThresholdsPass, List.all_eq_true] at hall
    have h := hall (name, Threshold.countGt 0) hmem
    rw [hget] at h
    simp [evalThreshold, counterFinal] at h
  · decide

/-- Witness for claim C2 at the purchase-flow configuration and a snapshot
recording no purchase_success samples. -/
theorem claim_C2_witness :
    ("purchase_success", Threshold.countGt 0) ∈ purchaseFlowThresholds ∧
    snapshotGet [("purchase_success", MetricData.counter [])] "purchase_success" =
      MetricData.counter [] ∧
    allThresholdsPass purchaseFlowThresholds
      [("purchase_success", MetricData.counter [])] = false :=
  ⟨by decide, by decide,
    claim_C2.1 purchaseFlowThresholds "purchase_success"
      [("purchase_success", MetricData.counter [])] (by decide) (by decide)⟩

/-- Claim C3: the run exit status is decided by the final threshold
evaluation alone: it is 0 exactly when every configured threshold passes
on the final snapshot, non-zero exactly when some configured threshold
fails there, and identical across runs whose earlier transient snapshots
differ but whose final snapshot agrees. -/
theorem claim_C3 :
    ∀ (cfg : List (String × Threshold)) (pre : List Snapshot) (snap : Snapshot),
      (runExitCode cfg (pre ++ [snap]) = 0 ↔
        ∀ nt ∈ cfg, evalThreshold nt.2 (snapshotGet snap nt.1) = true) ∧
      (runExitCode cfg (pre ++ [snap]) ≠ 0 ↔
        ∃ nt ∈ cfg, evalThreshold nt.2 (snapshotGet snap nt.1) = false) ∧
      (∀ pre2 : List Snapshot,
        runExitCode cfg (pre ++ [snap]) = runExitCode cfg (pre2 ++ [snap])) := by
  intro cfg pre snap
  have hlast : ∀ l : List Snapshot, (l ++ [snap]).getLastD [] = snap := fun l =>
    List.getLastD_concat _ _ _
  have hiff : allThresholdsPass cfg snap = true ↔
      ∀ nt ∈ cfg, evalThreshold nt.2 (snapshotGet snap nt.1) = true := by
    rw [allThresholdsPass]; exact List.all_eq_true
  refine ⟨?_, ?_, fun pre2 => by simp only [runExitCode, hlast]⟩
  · rw [runExitCode, hlast]
    by_cases h : allThresholdsPass cfg snap = true
    · rw [if_pos h]; exact ⟨fun _ => hiff.mp h, fun _ => rfl⟩
    · rw [if_neg h]
      exact ⟨fun h1 => absurd h1 one_ne_zero, fun hall => absurd (hiff.mpr hall) h⟩
  · rw [runExitCode, hlast]
    by_cases h : allThresholdsPass cfg snap = true
    · rw [if_pos h]
      constructor
      · intro h0; exact absurd rfl h0
      · rintro ⟨nt, hnt, hfail⟩
        rw [hiff.mp h nt hnt] at hfail
        simp at hfail
    · rw [if_neg h]
      constructor
      · intro _
        have hex : ¬ ∀ nt ∈ cfg, evalThreshold nt.2 (snapshotGet snap nt.1) = true :=
          fun hall => h (hiff.mpr hall)
        push_neg at hex
        obtain ⟨nt, hnt, hfail⟩ := hex
        exact ⟨nt, hnt, Bool.eq_false_iff.mpr hfail⟩
      · intro _; exact one_ne_zero

/-- Claim C5: the Rate aggregator reports trueCount/totalCount with 0 on
an empty total, and the /metrics handler reports the rounded percentage
of errors over requests when requests are positive and the literal 0%
otherwise. -/
theorem claim_C5 :
    (∀ obs : List Bool,
      rateReport (rateIngest obs) =
        if obs.length = 0 then 0 else (obs.count true : ℚ) / (obs.length : ℚ)) ∧
    (∀ requests errors : ℕ, 0 < requests →
      metricsErrorRate requests errors =
        jsToFixed2Str (100 * rateReport { trueCount := errors, totalCount := requests })
          ++ "%") ∧
    (∀ errors : ℕ, metricsErrorRate 0 errors = "0%") := by
  refine ⟨?_, ?_, ?_⟩
  · intro obs
    have h := rateIngest_foldl obs { trueCount := 0, totalCount := 0 }
    rw [rateReport, rateIngest]
    rw [h.1, h.2]
    simp only [Nat.zero_add]
  · intro requests errors hr
    rw [metricsErrorRate, if_pos hr, rateReport]
    rw [if_neg (Nat.pos_iff_ne_zero.mp hr)]
    have harith : (errors : ℚ) / (requests : ℚ) * 100 =
        100 * ((errors : ℚ) / (requests : ℚ)) := by ring
    rw [harith]
  · intro errors; rfl

/-- Witness for claim C5 on a positive request count. -/
theorem claim_C5_witness :
    0 < 4 ∧
    metricsErrorRate 4 1 =
      jsToFixed2Str (100 * rateReport { trueCount := 1, totalCount := 4 }) ++ "%" :=
  ⟨by decide, claim_C5.2.1 4 1 (by decide)⟩

/-- Claim C9: whatever the interleaving of the add calls of concurrently
ingesting virtual users, the final Counter value is the exact sum of all
their deltas: the fold over any schedule that is a permutation of the
users' combined delta streams equals the sum of the per-user sums. -/
theorem claim_C9 :
    ∀ (vus : List (List ℚ)) (schedule : List ℚ),
      schedule.Perm vus.flatten →
      counterFinal schedule = (vus.map (fun deltas => deltas.sum)).sum := by
  intro vus schedule hperm
  rw [counterFinal_eq_sum, hperm.sum_eq, List.sum_flatten]

/-- Witness for claim C9 on two virtual users whose three adds interleave. -/
theorem claim_C9_witness :
    ([3, 1, 2] : List ℚ).Perm ([[1, 2], [3]] : List (List ℚ)).flatten ∧
    counterFinal [3, 1, 2] = (([[1, 2], [3]] : List (List ℚ)).map (fun d => d.sum)).sum :=
  ⟨by decide, claim_C9 [[1, 2], [3]] [3, 1, 2] (by decide)⟩

/-- Unfolding the map lookup one entry at a time. -/
theorem jsMapGet_cons {β : Type} (e : String × β) (m : List (String × β)) (k : String) :
    jsMapGet (e :: m) k = if e.1 == k then some e.2 else jsMapGet m k := by
  by_cases he : (e.1 == k) = true
  · simp [jsMapGet, List.find?_cons, he]
  · simp [jsMapGet, List.find?_cons, he]

/-- After Map.set on a key some entry of the list carries, lookup of that
key yields the new value (replacement path). -/
theorem jsMapGet_map_set_self {β : Type} (m : List (String × β)) (k : String) (v : β)
    (ha : (m.any (fun x => x.1 == k)) = true) :
    jsMapGet (m.map (fun e => if e.1 == k then (k, v) else e)) k = some v := by
  induction m with
  | nil => simp at ha
  | cons e m ih =>
    simp only [List.map_cons]
    by_cases he : (e.1 == k) = true
    · rw [if_pos he, jsMapGet_cons]
      simp
    · have ha2 : (m.any (fun x => x.1 == k)) = true := by
        simpa [List.any_cons, he] using ha
      rw [if_neg he, jsMapGet_cons, if_neg he]
      exact ih ha2

/-- After Map.set on a key absent from the list, lookup of that key yields
the new value (append path). -/
theorem jsMapGet_append_set_self {β : Type} (m : List (String × β)) (k : String) (v : β)
    (ha : (m.any (fun x => x.1 == k)) = false) :
    jsMapGet (m ++ [(k, v)]) k = some v := by
  induction m with
  | nil => simp [jsMapGet_cons, jsMapGet]
  | cons e m ih =>
    rw [List.any_cons, Bool.or_eq_false_iff] at ha
    rw [List.cons_append, jsMapGet_cons, if_neg (by simp [ha.1])]
    exact ih ha.2

/-- Map.set stores the value under its key. -/
theorem jsMapGet_set_self {β : Type} (m : List (String × β)) (k : String) (v : β) :
    jsMapGet (jsMapSet m k v) k = some v := by
  rw [jsMapSet]
  by_cases ha : (m.any (fun x => x.1 == k)) = true
  · rw [if_pos ha]; exact jsMapGet_map_set_self m k v ha
  · rw [if_neg ha]
    exact jsMapGet_append_set_self m k v (Bool.eq_false_iff.mpr ha)

/-- The replacement path of Map.set leaves every other key unchanged. -/
theorem jsMapGet_map_set_other {β : Type} (m : List (String × β)) (k : String) (v : β)
    (u : String) (h : u ≠ k) :
    jsMapGet (m.map (fun e => if e.1 == k then (k, v) else e)) u = jsMapGet m u := by
  induction m with
  | nil => rfl
  | cons e m ih =>
    simp only [List.map_cons]
    by_cases he : (e.1 == k) = true
    · have he2 : e.1 = k := by simpa using he
      have h1 : (k == u) = false := by simp [Ne.symm h]
      have h2 : (e.1 == u) = false := by rw [he2]; exact h1
      rw [if_pos he, jsMapGet_cons, jsMapGet_cons, if_neg (by simp [h1]),
        if_neg (by simp [h2])]
      exact ih
    · rw [if_neg he, jsMapGet_cons, jsMapGet_cons]
      by_cases hu : (e.1 == u) = true
      · rw [if_pos hu, if_pos hu]
      · rw [if_neg hu, if_neg hu]; exact ih

/-- The append path of Map.set leaves every other key unchanged. -/
theorem jsMapGet_append_set_other {β : Type} (m : List (String × β)) (k : String) (v : β)
    (u : String) (h : u ≠ k) :
    jsMapGet (m ++ [(k, v)]) u = jsMapGet m u := by
  induction m with
  | nil =>
    have h1 : (k == u) = false := by simp [Ne.symm h]
    simp [jsMapGet, jsMapGet_cons, h1]
  | cons e m ih =>
    rw [List.cons_append, jsMapGet_cons, jsMapGet_cons]
    by_cases hu : (e.1 == u) = true
    · rw [if_pos hu, if_pos hu]
    · rw [if_neg hu, if_neg hu]; exact ih

/-- Map.set leaves every key other than the one being set unchanged. -/
theorem jsMapGet_set_other {β : Type} (m : List (String × β)) (k : String) (v : β)
    (u : String) (h : u ≠ k) :
    jsMapGet (jsMapSet m k v) u = jsMapGet m u := by
  rw [jsMapSet]
  by_cases ha : (m.any (fun x => x.1 == k)) = true
  · rw [if_pos ha]; exact jsMapGet_map_set_other m k v u h
  · rw [if_neg ha]; exact jsMapGet_append_set_other m k v u h

/-- Every entry of a list after Map.set is either an original entry or
carries the newly stored value. -/
theorem jsMapSet_mem {β : Type} (m : List (String × β)) (k : String) (v : β) :
    ∀ e ∈ jsMapSet m k v, e ∈ m ∨ e.2 = v := by
  intro e he
  rw [jsMapSet] at he
  by_cases ha : (m.any (fun x => x.1 == k)) = true
  · rw [if_pos ha] at he
    obtain ⟨a, ham, hfa⟩ := List.mem_map.mp he
    by_cases hk : (a.1 == k) = true
    · rw [if_pos hk] at hfa; right; rw [← hfa]
    · rw [if_neg hk] at hfa; left; rw [← hfa]; exact ham
  · rw [if_neg ha] at he
    rcases List.mem_append.mp he with h1 | h2
    · left; exact h1
    · right; rw [List.mem_singleton.mp h2]

/-- Claim C4: every iteration function consuming setup output copes with a
setup that failed to obtain a token: on token-less setup data each of the
six token-consuming iteration heads returns without raising, either by an
early return (validateToken) or by proceeding without valid
authentication (the guarded scripts drop auth headers entirely; api-crud
proceeds with the literal header Bearer null). -/
theorem claim_C4 :
    baselineIterStart none = .ok (.proceed none) ∧
    stressIterStart none = .ok (.proceed none) ∧
    spikeIterStart none = .ok (.proceed none) ∧
    soakIterStart none = .ok (.proceed none) ∧
    validateTokenIterStart none = .ok .earlyReturn ∧
    apiCrudIterStart none = .ok (.proceed (some "Bearer null")) :=
  ⟨rfl, rfl, rfl, rfl, rfl, rfl⟩

/-- Claim C6: POST /api/orders responds 400 leaving the database untouched
when the requesting user's cart is absent or empty; otherwise it appends
exactly one confirmed order carrying the cart's items and total, resets
that user's cart to the empty cart, leaves every other cart and the
products untouched, and responds 201 with the created order. -/
theorem claim_C6 :
    ∀ (db : Db) (uid oid now : String),
      (jsMapGet db.carts uid = none →
        postOrders db uid oid now = (db, .badRequest "Cart is empty")) ∧
      (∀ cart, jsMapGet db.carts uid = some cart → cart.items = [] →
        postOrders db uid oid now = (db, .badRequest "Cart is empty")) ∧
      (∀ cart, jsMapGet db.carts uid = some cart → cart.items ≠ [] →
        (postOrders db uid oid now).1.orders =
          db.orders ++ [{ id := oid, userId := uid, items := cart.items,
                          total := cart.total, status := "confirmed", createdAt := now }] ∧
        (postOrders db uid oid now).1.products = db.products ∧
        jsMapGet (postOrders db uid oid now).1.carts uid = some emptyCart ∧
        (∀ u, u ≠ uid →
          jsMapGet (postOrders db uid oid now).1.carts u = jsMapGet db.carts u) ∧
        (postOrders db uid oid now).2 =
          .created { id := oid, userId := uid, items := cart.items, total := cart.total,
                     status := "confirmed", createdAt := now }) := by
  intro db uid oid now
  refine ⟨?_, ?_, ?_⟩
  · intro hnone
    rw [postOrders, hnone]
  · intro cart hsome hempty
    rw [postOrders, hsome]
    simp [hempty]
  · intro cart hsome hne
    have hlen : cart.items.length ≠ 0 := fun h => hne (List.length_eq_zero.mp h)
    refine ⟨?_, ?_, ?_, ?_, ?_⟩
    · simp [postOrders, hsome, hlen]
    · simp [postOrders, hsome, hlen]
    · simp [postOrders, hsome, hlen, jsMapGet_set_self]
    · intro u hu
      simp [postOrders, hsome, hlen, jsMapGet_set_other _ _ _ _ hu]
    · simp [postOrders, hsome, hlen]

/-- Witness for claim C6 on the sample database holding one non-empty
cart. -/
theorem claim_C6_witness :
    jsMapGet sampleDb.carts "u1" = some sampleCart ∧ sampleCart.items ≠ [] ∧
    (postOrders sampleDb "u1" "o1" "2026-01-01").1.orders =
      sampleDb.orders ++ [{ id := "o1", userId := "u1", items := sampleCart.items,
                            total := sampleCart.total, status := "confirmed",
                            createdAt := "2026-01-01" }] ∧
    jsMapGet (postOrders sampleDb "u1" "o1" "2026-01-01").1.carts "u1" = some emptyCart :=
  ⟨by decide, by decide,
    ((claim_C6 sampleDb "u1" "o1" "2026-01-01").2.2 sampleCart (by decide) (by decide)).1,
    ((claim_C6 sampleDb "u1" "o1" "2026-01-01").2.2 sampleCart (by decide) (by decide)).2.2.1⟩

/-- The empty cart satisfies the cart-total invariant. -/
theorem emptyCart_inv : cartInv emptyCart := by
  norm_num [cartInv, emptyCart, recomputedTotal, jsRound2, jsRound]

/-- The sample cart satisfies the cart-total invariant. -/
theorem sampleCart_inv : cartInv sampleCart := by
  norm_num [cartInv, sampleCart, sampleItem, recomputedTotal, jsRound2, jsRound]

/-- Every cart of the sample database satisfies the cart-total invariant. -/
theorem sampleDb_inv : ∀ e ∈ sampleDb.carts, cartInv e.2 := by
  intro e he
  simp only [sampleDb, List.mem_singleton] at he
  rw [he]
  exact sampleCart_inv

/-- Claim C8: each request that mutates a stored cart (adding a cart item,
deleting a cart item, and the cart reset performed by order creation)
preserves the invariant that every stored cart's total is the rounded sum
of price times quantity over its items; the empty cart satisfies the
invariant as well, so it holds in every reachable cart state. -/
theorem claim_C8 :
    ∀ (db : Db) (uid : String),
      (∀ e ∈ db.carts, cartInv e.2) →
      (∀ pid qty, ∀ e ∈ (postCartItems db uid pid qty).1.carts, cartInv e.2) ∧
      (∀ pid, ∀ e ∈ (deleteCartItem db uid pid).1.carts, cartInv e.2) ∧
      (∀ oid now, ∀ e ∈ (postOrders db uid oid now).1.carts, cartInv e.2) ∧
      cartInv emptyCart := by
  intro db uid hinv
  refine ⟨?_, ?_, ?_, emptyCart_inv⟩
  · intro pid qty e he
    simp only [postCartItems] at he
    by_cases hf : jsFalsyStr pid = true
    · rw [if_pos hf] at he
      exact hinv e he
    · rw [if_neg hf] at he
      cases hp : db.products.find? (fun p => p.id == pid.getD "") with
      | none =>
        rw [hp] at he
        exact hinv e he
      | some product =>
        rw [hp] at he
        rcases jsMapSet_mem _ _ _ e he with hm | hv
        · exact hinv e hm
        · rw [cartInv, hv]
  · intro pid e he
    rw [deleteCartItem] at he
    cases hc : jsMapGet db.carts uid with
    | none => rw [hc] at he; exact hinv e he
    | some cart =>
      rw [hc] at he
      simp only at he
      rcases jsMapSet_mem _ _ _ e he with hm | hv
      · exact hinv e hm
      · rw [cartInv, hv]
  · intro oid now e he
    rw [postOrders] at he
    cases hc : jsMapGet db.carts uid with
    | none => rw [hc] at he; exact hinv e he
    | some cart =>
      rw [hc] at he
      by_cases hlen : cart.items.length = 0
      · simp only [if_pos hlen] at he
        exact hinv e he
      · simp only [if_neg hlen] at he
        rcases jsMapSet_mem _ _ _ e he with hm | hv
        · exact hinv e hm
        · rw [hv]; exact emptyCart_inv

/-- Witness for claim C8 on the sample database, adding one item to the
stored cart. -/
theorem claim_C8_witness :
    (∀ e ∈ sampleDb.carts, cartInv e.2) ∧
    (∀ e ∈ (postCartItems sampleDb "u1" (some "1") (some 1)).1.carts, cartInv e.2) ∧
    (∀ e ∈ (postOrders sampleDb "u1" "o1" "2026-01-01").1.carts, cartInv e.2) :=
  ⟨sampleDb_inv,
    (claim_C8 sampleDb "u1" sampleDb_inv).1 (some "1") (some 1),
    (claim_C8 sampleDb "u1" sampleDb_inv).2.2.1 "o1" "2026-01-01"⟩

/-- The requests the middleware passes through form a sublist of the
request sequence. -/
theorem acceptedTimes_sublist (limit : ℕ) :
    ∀ (ts stored : List ℤ), (acceptedTimes limit stored ts).Sublist ts := by
  intro ts
  induction ts with
  | nil => intro stored; rw [acceptedTimes]
  | cons t ts ih =>
    intro stored
    rw [acceptedTimes]
    by_cases h : (checkRateLimit limit stored t).1 = true
    · rw [if_pos h]
      exact (ih (rlRecord stored t)).cons₂ t
    · rw [if_neg h]
      exact (ih (rlRecord stored t)).cons t

/-- Processing a request sequence and then pruning at a bound above every
processed time is the same as pruning the raw history at that bound: the
intermediate prunings of the limiter discard only timestamps that the
final pruning discards as well. -/
theorem storedAfter_filter (t : ℤ) :
    ∀ (ts stored : List ℤ), (∀ s ∈ ts, s ≤ t) →
      (storedAfter stored ts).filter (fun s => decide (t - 60000 < s)) =
        (stored ++ ts).filter (fun s => decide (t - 60000 < s)) := by
  intro ts
  induction ts with
  | nil => intro stored _; rw [storedAfter]; simp
  | cons a ts ih =>
    intro stored h
    rw [storedAfter]
    rw [ih (rlRecord stored a) (fun s hs => h s (List.mem_cons_of_mem a hs))]
    have ha : a ≤ t := h a (List.mem_cons_self a ts)
    have hfilter : (stored.filter (fun s => decide (a - 60000 < s))).filter
        (fun s => decide (t - 60000 < s)) = stored.filter (fun s => decide (t - 60000 < s)) := by
      rw [List.filter_filter]
      apply List.filter_congr
      intro x _
      by_cases hx : t - 60000 < x
      · have hax : a - 60000 < x := by omega
        simp [hx, hax]
      · simp [hx]
    calc ((stored.filter (fun s => decide (a - 60000 < s)) ++ [a]) ++ ts).filter
          (fun s => decide (t - 60000 < s))
        = (stored.filter (fun s => decide (a - 60000 < s))).filter
            (fun s => decide (t - 60000 < s)) ++
          ([a] ++ ts).filter (fun s => decide (t - 60000 < s)) := by
          rw [List.append_assoc, List.filter_append]
      _ = stored.filter (fun s => decide (t - 60000 < s)) ++
          ((a :: ts).filter (fun s => decide (t - 60000 < s))) := by
          rw [hfilter, List.singleton_append]
      _ = (stored ++ a :: ts).filter (fun s => decide (t - 60000 < s)) :=
          (List.filter_append _ _).symm

/-- Splitting the processing of a request sequence at its last request:
the last request is passed through exactly when checkRateLimit accepts it
against the state accumulated over the earlier requests. -/
theorem acceptedTimes_append (limit : ℕ) (t : ℤ) :
    ∀ (ts stored : List ℤ),
      acceptedTimes limit stored (ts ++ [t]) =
        acceptedTimes limit stored ts ++
          (if (checkRateLimit limit (storedAfter stored ts) t).1 then [t] else []) := by
  intro ts
  induction ts with
  | nil =>
    intro stored
    by_cases h : (checkRateLimit limit stored t).1 = true
    · simp [acceptedTimes, storedAfter, h]
    · simp [acceptedTimes, storedAfter, h]
  | cons a ts ih =>
    intro stored
    simp only [List.cons_append, acceptedTimes, List.append_eq]
    rw [ih (rlRecord stored a), storedAfter]
    by_cases h : (checkRateLimit limit stored a).1 = true
    · simp [h]
    · simp [h]

/-- In any trailing window of 60000ms, the middleware passes at most
RATE_LIMIT time-ordered same-IP requests through to a handler. -/
theorem acceptedTimes_window_bound (limit : ℕ) :
    ∀ ts : List ℤ, List.Sorted (· ≤ ·) ts →
      ∀ w : ℤ,
        ((acceptedTimes limit [] ts).filter
          (fun s => decide (w < s) && decide (s ≤ w + 60000))).length ≤ limit := by
  intro ts
  induction ts using List.reverseRecOn with
  | nil => intro _ w; rw [acceptedTimes]; simp
  | append_singleton ts t ih =>
    intro hsorted w
    have hp := List.pairwise_append.mp hsorted
    have hsorted2 : List.Sorted (· ≤ ·) ts := hp.1
    have hle : ∀ s ∈ ts, s ≤ t := fun s hs => hp.2.2 s hs t (List.mem_singleton_self t)
    rw [acceptedTimes_append, List.filter_append, List.length_append]
    by_cases hacc : (checkRateLimit limit (storedAfter [] ts) t).1 = true
    · rw [if_pos hacc]
      by_cases hwin : (decide (w < t) && decide (t ≤ w + 60000)) = true
      · have hwlt : w < t ∧ t ≤ w + 60000 := by simpa using hwin
        have hcond : ((storedAfter [] ts).filter
            (fun s => decide (t - 60000 < s))).length + 1 ≤ limit := by
          have h2 : ((rlRecord (storedAfter [] ts) t).length ≤ limit) := by
            simpa [checkRateLimit] using hacc
          simpa [rlRecord] using h2
        rw [storedAfter_filter t ts [] hle] at hcond
        rw [List.nil_append] at hcond
        have hsub1 : List.Sublist
            ((acceptedTimes limit [] ts).filter
              (fun s => decide (w < s) && decide (s ≤ w + 60000)))
            (ts.filter (fun s => decide (w < s) && decide (s ≤ w + 60000))) :=
          (acceptedTimes_sublist limit ts []).filter _
        have hsub2 : List.Sublist
            (ts.filter (fun s => decide (w < s) && decide (s ≤ w + 60000)))
            (ts.filter (fun s => decide (t - 60000 < s))) := by
          apply List.monotone_filter_right
          intro s hs
          have hs2 : w < s ∧ s ≤ w + 60000 := by simpa using hs
          have hws : t - 60000 < s := by omega
          simpa using hws
        have hlen := (hsub1.trans hsub2).length_le
        have hone : ([t].filter
            (fun s => decide (w < s) && decide (s ≤ w + 60000))).length ≤ 1 := by
          by_cases hc : (decide (w < t) && decide (t ≤ w + 60000)) = true
          · simp [List.filter_cons, hc]
          · simp [List.filter_cons, hc]
        omega
      · have hone : ([t].filter (fun s => decide (w < s) && decide (s ≤ w + 60000))).length = 0 := by
          simp only [List.filter, hwin]
          rfl
        rw [hone]
        have := ih hsorted2 w
        omega
    · rw [if_neg hacc]
      simp only [List.filter_nil, List.length_nil]
      have := ih hsorted2 w
      omega

/-- Claim C7: the middleware rejects with 429 exactly when the recorded
same-IP requests inside the trailing 60000ms window, counting the current
request, exceed RATE_LIMIT; the current timestamp is recorded in the
limiter state whether or not the request is rejected; consequently, over
any time-ordered same-IP request sequence, at most RATE_LIMIT requests
whose times fall in any 60-second window reach an endpoint handler. -/
theorem claim_C7 :
    (∀ (limit : ℕ) (stored : List ℤ) (t : ℤ),
      ((checkRateLimit limit stored t).1 = false ↔
        limit < (stored.filter (fun s => decide (t - 60000 < s))).length + 1) ∧
      (checkRateLimit limit stored t).2 =
        stored.filter (fun s => decide (t - 60000 < s)) ++ [t]) ∧
    (∀ (limit : ℕ) (ts : List ℤ), List.Sorted (· ≤ ·) ts →
      ∀ w : ℤ,
        ((acceptedTimes limit [] ts).filter
          (fun s => decide (w < s) && decide (s ≤ w + 60000))).length ≤ limit) := by
  refine ⟨?_, acceptedTimes_window_bound⟩
  intro limit stored t
  constructor
  · rw [checkRateLimit]
    simp [rlRecord]
  · rfl

/-- Witness for claim C7 on a sorted four-request trace against limit 2. -/
theorem claim_C7_witness :
    List.Sorted (· ≤ ·) ([0, 10, 20, 30] : List ℤ) ∧
    ((acceptedTimes 2 [] [0, 10, 20, 30]).filter
      (fun s => decide ((-1 : ℤ) < s) && decide (s ≤ -1 + 60000))).length ≤ 2 :=
  ⟨by decide, claim_C7.2 2 [0, 10, 20, 30] (by decide) (-1)⟩

/-- Claim C10: every test script's handleSummary returns an object with
exactly one key, the script's reports/&lt;test&gt;-summary.json path, whose
value is the indent-2 serialization of the summary data (extended with
exactly one added analysis object in the stress and soak scripts), and
adding that analysis key leaves every other field of the serialized
object, in particular its metric values, unchanged. -/
theorem claim_C10 :
    (∀ d, handleSummaryBaseline d = [("reports/baseline-summary.json", jsonStringify2 d)]) ∧
    (∀ d, handleSummaryPurchaseFlow d =
      [("reports/purchase-flow-summary.json", jsonStringify2 d)]) ∧
    (∀ d, handleSummaryApiCrud d = [("reports/api-crud-summary.json", jsonStringify2 d)]) ∧
    (∀ d, handleSummaryMixedWorkload d =
      [("reports/mixed-workload-summary.json", jsonStringify2 d)]) ∧
    (∀ d, handleSummaryAuthStress d =
      [("reports/auth-stress-summary.json", jsonStringify2 d)]) ∧
    (∀ d, handleSummarySpike d = [("reports/spike-summary.json", jsonStringify2 d)]) ∧
    (∀ d a, stressAnalysis d = .ok a →
      handleSummaryStress d =
        .ok [("reports/stress-summary.json",
          jsonStringify2 (jsSpreadSet d "analysis" a))]) ∧
    (∀ d a, soakAnalysis d = .ok a →
      handleSummarySoak d =
        .ok [("reports/soak-summary.json",
          jsonStringify2 (jsSpreadSet d "soakAnalysis" a))]) ∧
    (∀ (fs : List (String × Js)) (k : String) (v : Js) (u : String), u ≠ k →
      jsField (jsSpreadSet (.obj fs) k v) u = jsField (.obj fs) u) := by
  refine ⟨fun d => rfl, fun d => rfl, fun d => rfl, fun d => rfl, fun d => rfl, fun d => rfl,
    ?_, ?_, ?_⟩
  · intro d a ha
    rw [handleSummaryStress, ha]
    rfl
  · intro d a ha
    rw [handleSummarySoak, ha]
    rfl
  · intro fs k v u hu
    simp only [jsSpreadSet, jsField]
    exact jsMapGet_set_other fs k v u hu

/-- Witness for claim C10 on the sample summary object: the stress
analysis computes, the stress summary serializes the extended object
under its single report path, and the metrics field survives the
extension. -/
theorem claim_C10_witness :
    stressAnalysis sampleSummary =
      .ok (Js.obj [("maxVUs", Js.str "N/A"), ("errorRateFinal", Js.str "N/A"),
        ("p95ResponseTime", Js.str "N/A"), ("degradedCount", Js.num 0)]) ∧
    handleSummaryStress sampleSummary =
      .ok [("reports/stress-summary.json",
        jsonStringify2 (jsSpreadSet sampleSummary "analysis"
          (Js.obj [("maxVUs", Js.str "N/A"), ("errorRateFinal", Js.str "N/A"),
            ("p95ResponseTime", Js.str "N/A"), ("degradedCount", Js.num 0)])))] ∧
    ("metrics" : String) ≠ "analysis" ∧
    jsField (jsSpreadSet sampleSummary "analysis"
        (Js.obj [("maxVUs", Js.str "N/A"), ("errorRateFinal", Js.str "N/A"),
          ("p95ResponseTime", Js.str "N/A"), ("degradedCount", Js.num 0)])) "metrics" =
      jsField sampleSummary "metrics" :=
  ⟨rfl,
    claim_C10.2.2.2.2.2.2.1 sampleSummary
      (Js.obj [("maxVUs", Js.str "N/A"), ("errorRateFinal", Js.str "N/A"),
        ("p95ResponseTime", Js.str "N/A"), ("degradedCount", Js.num 0)]) rfl,
    by decide,
    claim_C10.2.2.2.2.2.2.2.2 [("metrics", Scripts.Js.obj [])] "analysis"
      (Js.obj [("maxVUs", Js.str "N/A"), ("errorRateFinal", Js.str "N/A"),
        ("p95ResponseTime", Js.str "N/A"), ("degradedCount", Js.num 0)]) "metrics"
      (by decide)⟩
